import Mathlib

/-!
Shallow embedding of the photo-studio backend's multi-store orchestration
(src/routers/photos.py, src/routers/albums.py, src/routers/ai_photos.py,
src/services/*.py, src/repositories/*.py,
src/functions/thumbnail_generator/main.py).

The relational store is a list of rows; the object store a list of blob
paths; the document store an association list keyed by photo id.  External
adapters that can fail are driven by explicit Boolean success oracles: a
`true` oracle means the underlying client call succeeds, `false` means it
raises (or, for the Firestore/GCS calls whose exceptions the source catches
internally, that the call reports failure).  Python exceptions are embedded
as `Except Unit`.
-/

namespace PhotoStudio

/-- `PhotoStatus` enum from src/models/photo.py. -/
inductive PhotoStatus where
  | uploading
  | processed
  | failed
deriving DecidableEq, Repr

/-- Photo row from src/models/photo.py (UUIDs abstracted as Nat). -/
structure Photo where
  id : Nat
  user_id : Nat
  storage_path : String
  status : PhotoStatus
  created_at : Nat
deriving DecidableEq, Repr

/-- Album row from src/models/photo.py (only the fields the claims need). -/
structure Album where
  id : Nat
  user_id : Nat
deriving DecidableEq, Repr

/-- AlbumPhoto association row from src/models/photo.py. -/
structure AlbumPhoto where
  album_id : Nat
  photo_id : Nat
deriving DecidableEq, Repr

/-- The three independently failing stores the orchestration layer touches:
relational photo rows, the document-store entries (photo id, status field),
and the object-store blob paths. -/
structure Store where
  photos : List Photo
  docs : List (Nat × PhotoStatus)
  blobs : List String
deriving DecidableEq, Repr

/-- ALLOWED_IMAGE_TYPES from src/configs/settings.py. -/
def Settings.ALLOWED_IMAGE_TYPES : List String :=
  ["image/jpeg", "image/png", "image/gif", "image/webp"]

/-- MAX_UPLOAD_SIZE from src/configs/settings.py. -/
def Settings.MAX_UPLOAD_SIZE : Nat := 10 * 1024 * 1024

/-- PhotoRepository.get_by_id (src/repositories/photo.py): SELECT by primary key. -/
def PhotoRepository.get_by_id (photos : List Photo) (photo_id : Nat) : Option Photo :=
  photos.find? (fun p => p.id == photo_id)

/-- PhotoRepository.create (src/repositories/photo.py): INSERT + commit.
`dbOk = false` models the database call raising. -/
def PhotoRepository.create (dbOk : Bool) (photos : List Photo) (p : Photo) :
    Except Unit (Photo × List Photo) :=
  if dbOk then Except.ok (p, photos ++ [p]) else Except.error ()

/-- Effect of the UPDATE statement in PhotoRepository.update_photo: the
`values(**update_data)` dict holds `storage_path` and `status` only when the
corresponding argument is not None. -/
def PhotoRepository.update_rows (photos : List Photo) (photo_id : Nat)
    (storage_path : Option String) (status : Option PhotoStatus) : List Photo :=
  photos.map (fun p =>
    if p.id = photo_id then
      { p with storage_path := storage_path.getD p.storage_path,
               status := status.getD p.status }
    else p)

/-- PhotoRepository.update_photo (src/repositories/photo.py): when both
arguments are None no statement is issued and the current row is returned;
otherwise the UPDATE runs (`dbOk = false` models it raising) and the row is
re-read. -/
def PhotoRepository.update_photo (dbOk : Bool) (photos : List Photo) (photo_id : Nat)
    (storage_path : Option String) (status : Option PhotoStatus) :
    Except Unit (List Photo × Option Photo) :=
  if storage_path.isNone && status.isNone then
    Except.ok (photos, PhotoRepository.get_by_id photos photo_id)
  else if dbOk then
    let photos2 := PhotoRepository.update_rows photos photo_id storage_path status
    Except.ok (photos2, PhotoRepository.get_by_id photos2 photo_id)
  else Except.error ()

/-- PhotoRepository.delete_photo (src/repositories/photo.py): read, then
DELETE + commit; returns False when the row is absent. -/
def PhotoRepository.delete_photo (dbOk : Bool) (photos : List Photo) (photo_id : Nat) :
    Except Unit (Bool × List Photo) :=
  match PhotoRepository.get_by_id photos photo_id with
  | none => Except.ok (false, photos)
  | some _ =>
    if dbOk then Except.ok (true, photos.filter (fun p => p.id ≠ photo_id))
    else Except.error ()

/-- PhotoService.update_photo (src/services/photo.py): returns None without
touching the database when the photo does not exist. -/
def PhotoService.update_photo (dbOk : Bool) (photos : List Photo) (photo_id : Nat)
    (storage_path : Option String) (status : Option PhotoStatus) :
    Except Unit (List Photo × Option Photo) :=
  match PhotoRepository.get_by_id photos photo_id with
  | none => Except.ok (photos, none)
  | some _ => PhotoRepository.update_photo dbOk photos photo_id storage_path status

/-- PhotoService.mark_as_processed (src/services/photo.py). -/
def PhotoService.mark_as_processed (dbOk : Bool) (photos : List Photo) (photo_id : Nat) :
    Except Unit (List Photo × Option Photo) :=
  PhotoService.update_photo dbOk photos photo_id none (some PhotoStatus.processed)

/-- PhotoService.delete_photo (src/services/photo.py). -/
def PhotoService.delete_photo (dbOk : Bool) (photos : List Photo) (photo_id : Nat) :
    Except Unit (Bool × List Photo) :=
  PhotoRepository.delete_photo dbOk photos photo_id

/-- StorageService.upload_file (src/services/storage.py): writes the blob
under a freshly generated unique path, raising on a storage failure. -/
def StorageService.upload_file (gcsOk : Bool) (blob_name : String) (blobs : List String) :
    Except Unit (String × List String) :=
  if gcsOk then Except.ok (blob_name, blobs ++ [blob_name]) else Except.error ()

/-- StorageService.delete_file (src/services/storage.py): `blob.delete()`
with every GoogleCloudError (including NotFound for a missing blob) caught
and turned into False — this call never raises. -/
def StorageService.delete_file (gcsOk : Bool) (blobs : List String) (blob_name : String) :
    Bool × List String :=
  if gcsOk && blobs.contains blob_name then
    (true, blobs.filter (fun b => b ≠ blob_name))
  else (false, blobs)

/-- FirestoreService.save_photo_metadata (src/services/firestore.py):
`doc_ref.set` with GoogleCloudError caught and turned into False — this call
never raises.  Only the status field of the document is tracked. -/
def FirestoreService.save_photo_metadata (fsOk : Bool) (docs : List (Nat × PhotoStatus))
    (photo_id : Nat) (status : PhotoStatus) : Bool × List (Nat × PhotoStatus) :=
  if fsOk then (true, docs.filter (fun d => d.1 ≠ photo_id) ++ [(photo_id, status)])
  else (false, docs)

/-- FirestoreService.update_photo_metadata (src/services/firestore.py):
`doc_ref.update` raises NotFound on a missing document; every
GoogleCloudError is caught and turned into False — this call never raises. -/
def FirestoreService.update_photo_metadata (fsOk : Bool) (docs : List (Nat × PhotoStatus))
    (photo_id : Nat) (status : PhotoStatus) : Bool × List (Nat × PhotoStatus) :=
  if fsOk && docs.any (fun d => d.1 == photo_id) then
    (true, docs.map (fun d => if d.1 = photo_id then (d.1, status) else d))
  else (false, docs)

/-- FirestoreService.delete_photo_metadata (src/services/firestore.py):
`doc_ref.delete` (idempotent in Firestore) with GoogleCloudError caught and
turned into False — this call never raises. -/
def FirestoreService.delete_photo_metadata (fsOk : Bool) (docs : List (Nat × PhotoStatus))
    (photo_id : Nat) : Bool × List (Nat × PhotoStatus) :=
  if fsOk then (true, docs.filter (fun d => d.1 ≠ photo_id)) else (false, docs)

/-- Success oracles for the five adapter calls the upload flow makes. -/
structure UploadEnv where
  storageOk : Bool
  insertOk : Bool
  firestoreSetOk : Bool
  markOk : Bool
  firestoreUpdateOk : Bool
deriving DecidableEq, Repr

/-- HTTP-level outcome of the upload route. -/
inductive UploadOutcome where
  | badRequest
  | serverError
  | created (photo : Photo)
deriving DecidableEq, Repr

/-- upload_photo route (src/routers/photos.py lines 48-127): validate
content-type and size, upload the blob, insert the row with status
uploading, best-effort Firestore set, mark processed, best-effort Firestore
update; every exception inside the try block becomes HTTP 500. -/
def upload_photo (env : UploadEnv) (content_type : String) (file_size : Nat)
    (uid newId now : Nat) (newPath : String) (s : Store) : UploadOutcome × Store :=
  if content_type ∉ Settings.ALLOWED_IMAGE_TYPES then (UploadOutcome.badRequest, s)
  else if Settings.MAX_UPLOAD_SIZE < file_size then (UploadOutcome.badRequest, s)
  else
    match StorageService.upload_file env.storageOk newPath s.blobs with
    | Except.error _ => (UploadOutcome.serverError, s)
    | Except.ok (storage_path, blobs1) =>
      match PhotoRepository.create env.insertOk s.photos
          { id := newId, user_id := uid, storage_path := storage_path,
            status := PhotoStatus.uploading, created_at := now } with
      | Except.error _ => (UploadOutcome.serverError, { s with blobs := blobs1 })
      | Except.ok (photo, photos1) =>
        let docs1 :=
          (FirestoreService.save_photo_metadata env.firestoreSetOk s.docs photo.id
            PhotoStatus.uploading).2
        match PhotoService.mark_as_processed env.markOk photos1 photo.id with
        | Except.error _ =>
          (UploadOutcome.serverError, { photos := photos1, docs := docs1, blobs := blobs1 })
        | Except.ok (photos2, _) =>
          let docs2 :=
            (FirestoreService.update_photo_metadata env.firestoreUpdateOk docs1 photo.id
              PhotoStatus.processed).2
          (UploadOutcome.created photo, { photos := photos2, docs := docs2, blobs := blobs1 })

/-- Success oracles for the three adapter calls the delete flow makes. -/
structure DeleteEnv where
  blobDeleteOk : Bool
  docDeleteOk : Bool
  rowDeleteOk : Bool
deriving DecidableEq, Repr

/-- HTTP-level outcome of the delete route. -/
inductive DeleteOutcome where
  | notFound
  | forbidden
  | noContent
  | serverError
deriving DecidableEq, Repr

/-- delete_photo route (src/routers/photos.py lines 451-489): 404 on a
missing row, 403 on a foreign row, then blob delete (best-effort), document
delete (best-effort), and finally the relational DELETE, whose exception is
the only one that propagates. -/
def delete_photo (env : DeleteEnv) (uid photo_id : Nat) (s : Store) :
    DeleteOutcome × Store :=
  match PhotoRepository.get_by_id s.photos photo_id with
  | none => (DeleteOutcome.notFound, s)
  | some photo =>
    if photo.user_id ≠ uid then (DeleteOutcome.forbidden, s)
    else
      let blobs1 := (StorageService.delete_file env.blobDeleteOk s.blobs photo.storage_path).2
      let docs1 := (FirestoreService.delete_photo_metadata env.docDeleteOk s.docs photo_id).2
      match PhotoService.delete_photo env.rowDeleteOk s.photos photo_id with
      | Except.error _ =>
        (DeleteOutcome.serverError, { photos := s.photos, docs := docs1, blobs := blobs1 })
      | Except.ok (_, photos1) =>
        (DeleteOutcome.noContent, { photos := photos1, docs := docs1, blobs := blobs1 })

/-- AlbumRepository.get_by_id (src/repositories/album.py). -/
def AlbumRepository.get_by_id (albums : List Album) (album_id : Nat) : Option Album :=
  albums.find? (fun a => a.id == album_id)

/-- AlbumRepository.is_photo_in_album (src/repositories/album.py): SELECT on
the association table for the pair. -/
def AlbumRepository.is_photo_in_album (assoc : List AlbumPhoto) (album_id photo_id : Nat) :
    Bool :=
  (assoc.find? (fun ap => ap.album_id == album_id && ap.photo_id == photo_id)).isSome

/-- AlbumRepository.add_photo_to_album (src/repositories/album.py): INSERT
of the association row. -/
def AlbumRepository.add_photo_to_album (assoc : List AlbumPhoto) (album_id photo_id : Nat) :
    List AlbumPhoto :=
  assoc ++ [{ album_id := album_id, photo_id := photo_id }]

/-- AlbumRepository.remove_photo_from_album (src/repositories/album.py):
DELETE of every row for the pair; returns rowcount > 0. -/
def AlbumRepository.remove_photo_from_album (assoc : List AlbumPhoto)
    (album_id photo_id : Nat) : Bool × List AlbumPhoto :=
  (assoc.any (fun ap => ap.album_id == album_id && ap.photo_id == photo_id),
   assoc.filter (fun ap => !(ap.album_id == album_id && ap.photo_id == photo_id)))

/-- AlbumService.add_photo_to_album (src/services/album.py lines 62-77):
album found and owned, photo found and owned, pair not yet associated; any
failed check returns False without inserting. -/
def AlbumService.add_photo_to_album (albums : List Album) (photos : List Photo)
    (assoc : List AlbumPhoto) (album_id photo_id uid : Nat) : Bool × List AlbumPhoto :=
  match AlbumRepository.get_by_id albums album_id with
  | none => (false, assoc)
  | some album =>
    if album.user_id ≠ uid then (false, assoc)
    else
      match PhotoRepository.get_by_id photos photo_id with
      | none => (false, assoc)
      | some photo =>
        if photo.user_id ≠ uid then (false, assoc)
        else if AlbumRepository.is_photo_in_album assoc album_id photo_id then (false, assoc)
        else (true, AlbumRepository.add_photo_to_album assoc album_id photo_id)

/-- AlbumService.remove_photo_from_album (src/services/album.py). -/
def AlbumService.remove_photo_from_album (albums : List Album) (assoc : List AlbumPhoto)
    (album_id photo_id uid : Nat) : Bool × List AlbumPhoto :=
  match AlbumRepository.get_by_id albums album_id with
  | none => (false, assoc)
  | some album =>
    if album.user_id ≠ uid then (false, assoc)
    else AlbumRepository.remove_photo_from_album assoc album_id photo_id

/-- AlbumService.album_exists (src/services/album.py). -/
def AlbumService.album_exists (albums : List Album) (album_id : Nat) : Bool :=
  (AlbumRepository.get_by_id albums album_id).isSome

/-- AlbumService.verify_album_ownership (src/services/album.py). -/
def AlbumService.verify_album_ownership (albums : List Album) (album_id uid : Nat) : Bool :=
  match AlbumRepository.get_by_id albums album_id with
  | none => false
  | some album => album.user_id == uid

/-- HTTP-level outcome of the add-photo-to-album route. -/
inductive AddOutcome where
  | noContent
  | albumNotFound
  | albumForbidden
  | badRequest
deriving DecidableEq, Repr

/-- add_photo_to_album route (src/routers/albums.py lines 247-289): on a
service failure, album not-found/not-owned are reported as 404/403; the
remaining causes share one 400. -/
def add_photo_to_album_route (albums : List Album) (photos : List Photo)
    (assoc : List AlbumPhoto) (album_id photo_id uid : Nat) : AddOutcome × List AlbumPhoto :=
  let r := AlbumService.add_photo_to_album albums photos assoc album_id photo_id uid
  if r.1 then (AddOutcome.noContent, r.2)
  else if !(AlbumService.verify_album_ownership albums album_id uid) then
    if !(AlbumService.album_exists albums album_id) then (AddOutcome.albumNotFound, r.2)
    else (AddOutcome.albumForbidden, r.2)
  else (AddOutcome.badRequest, r.2)

/-- Album-membership operations whose sequences the duplicate-count
invariant ranges over. -/
inductive AlbumOp where
  | add (album_id photo_id uid : Nat)
  | remove (album_id photo_id uid : Nat)
deriving DecidableEq, Repr

/-- Effect of one service-level album-membership operation on the
association table. -/
def applyAlbumOp (albums : List Album) (photos : List Photo) (assoc : List AlbumPhoto) :
    AlbumOp → List AlbumPhoto
  | AlbumOp.add album_id photo_id uid =>
    (AlbumService.add_photo_to_album albums photos assoc album_id photo_id uid).2
  | AlbumOp.remove album_id photo_id uid =>
    (AlbumService.remove_photo_from_album albums assoc album_id photo_id uid).2

/-- Run a sequence of album-membership operations. -/
def runAlbumOps (albums : List Album) (photos : List Photo) (assoc : List AlbumPhoto)
    (ops : List AlbumOp) : List AlbumPhoto :=
  ops.foldl (applyAlbumOp albums photos) assoc

/-- Number of association rows for one (album_id, photo_id) pair. -/
def pairCount (assoc : List AlbumPhoto) (album_id photo_id : Nat) : Nat :=
  (assoc.filter (fun ap => ap.album_id == album_id && ap.photo_id == photo_id)).length

/-- AIImageGeneratorService.get_supported_aspect_ratios
(src/services/ai_image_generator.py lines 147-166), in source order. -/
def AIImageGeneratorService.get_supported_aspect_ratios : List String :=
  ["1:1", "2:3", "3:2", "3:4", "4:3", "4:5", "5:4", "9:16", "16:9", "21:9"]

/-- Success oracles for the adapter calls the AI-generation flow makes. -/
structure GenEnv where
  aiOk : Bool
  storageOk : Bool
  insertOk : Bool
  firestoreSetOk : Bool
  markOk : Bool
deriving DecidableEq, Repr

/-- HTTP-level outcome of the AI-generation route. -/
inductive GenOutcome where
  | badRequest
  | serverError
  | created (photo : Photo)
deriving DecidableEq, Repr

/-- Result of the AI-generation route, recording whether the AI adapter was
invoked at all. -/
structure GenResult where
  outcome : GenOutcome
  store : Store
  aiCalled : Bool
deriving DecidableEq, Repr

/-- generate_photo_from_text route (src/routers/ai_photos.py lines 38-122):
reject an unsupported aspect ratio with 400 before calling the AI adapter;
otherwise generate, upload the blob, insert the row with status uploading,
best-effort Firestore set, mark processed; every exception in the try block
becomes HTTP 500. -/
def generate_photo_from_text (env : GenEnv) (aspect : String)
    (uid newId now : Nat) (newPath : String) (s : Store) : GenResult :=
  if aspect ∉ AIImageGeneratorService.get_supported_aspect_ratios then
    { outcome := GenOutcome.badRequest, store := s, aiCalled := false }
  else if !env.aiOk then
    { outcome := GenOutcome.serverError, store := s, aiCalled := true }
  else
    match StorageService.upload_file env.storageOk newPath s.blobs with
    | Except.error _ => { outcome := GenOutcome.serverError, store := s, aiCalled := true }
    | Except.ok (storage_path, blobs1) =>
      match PhotoRepository.create env.insertOk s.photos
          { id := newId, user_id := uid, storage_path := storage_path,
            status := PhotoStatus.uploading, created_at := now } with
      | Except.error _ =>
        { outcome := GenOutcome.serverError, store := { s with blobs := blobs1 },
          aiCalled := true }
      | Except.ok (photo, photos1) =>
        let docs1 :=
          (FirestoreService.save_photo_metadata env.firestoreSetOk s.docs photo.id
            PhotoStatus.processed).2
        match PhotoService.mark_as_processed env.markOk photos1 photo.id with
        | Except.error _ =>
          { outcome := GenOutcome.serverError,
            store := { photos := photos1, docs := docs1, blobs := blobs1 }, aiCalled := true }
        | Except.ok (photos2, _) =>
          { outcome := GenOutcome.created photo,
            store := { photos := photos2, docs := docs1, blobs := blobs1 }, aiCalled := true }

/-- Python's `s.rsplit(sep, 1)` restricted to the split case: splits at the
LAST occurrence of `sep`, returning none when `sep` does not occur. -/
def rsplitOnce (sep : Char) : List Char → Option (List Char × List Char)
  | [] => none
  | c :: rest =>
    match rsplitOnce sep rest with
    | some (l, r) => some (c :: l, r)
    | none => if c = sep then some ([], rest) else none

/-- get_thumbnail_path (src/functions/thumbnail_generator/main.py lines
69-100): split off the directory at the last slash and the extension at the
last dot (defaulting to jpg), then insert a thumbnails segment and a size
suffix. -/
def get_thumbnail_path (original_path size_name : List Char) : List Char :=
  let df :=
    match rsplitOnce '/' original_path with
    | some df => df
    | none => ([], original_path)
  let ne :=
    match rsplitOnce '.' df.2 with
    | some ne => ne
    | none => (df.2, "jpg".data)
  if df.1 = [] then
    "thumbnails/".data ++ ne.1 ++ '_' :: size_name ++ '.' :: ne.2
  else
    df.1 ++ "/thumbnails/".data ++ ne.1 ++ '_' :: size_name ++ '.' :: ne.2

/-- Python's `pat in s` on strings: some contiguous segment of `s` equals
`pat`. -/
def containsSeg (pat s : List Char) : Bool :=
  s.tails.any (fun t => pat.isPrefixOf t)

/-- THUMBNAIL_SIZES (src/functions/thumbnail_generator/main.py), in source
(insertion) order: name and nominal pixel box. -/
def THUMBNAIL_SIZES : List (List Char × Nat × Nat) :=
  [("small".data, 150, 150), ("medium".data, 300, 300), ("large".data, 600, 600)]

/-- Success oracles for the thumbnail worker's adapter calls: source-blob
download, per-size generate+upload (keyed by size name), document existence,
and the document patch. -/
structure ThumbEnv where
  downloadOk : Bool
  sizeOk : List Char → Bool
  docExists : Bool
  patchOk : Bool

/-- Outcome of one worker invocation: skipped by the path guards, aborted by
a re-raised exception (carrying the thumbnail paths uploaded before the
failure), or completed (carrying the uploaded paths and whether the
metadata document was patched). -/
inductive WorkerResult where
  | skipped
  | raised (uploaded : List (List Char))
  | completed (uploaded : List (List Char)) (patched : Bool)
deriving DecidableEq, Repr

/-- The worker's per-size loop (src/functions/thumbnail_generator/main.py
lines 144-168): sizes are processed in order inside one try block, so the
first generate/upload failure raises out of the loop, keeping the uploads
made so far. -/
def thumbLoop (ok : List Char → Bool) (file_path : List Char) :
    List (List Char × Nat × Nat) → Except (List (List Char)) (List (List Char))
  | [] => Except.ok []
  | t :: rest =>
    if ok t.1 then
      match thumbLoop ok file_path rest with
      | Except.ok ups => Except.ok (get_thumbnail_path file_path t.1 :: ups)
      | Except.error ups => Except.error (get_thumbnail_path file_path t.1 :: ups)
    else Except.error []

/-- generate_photo_thumbnail (src/functions/thumbnail_generator/main.py
lines 104-210): skip paths under a thumbnails segment or outside the photos
namespace; one try block covers the download and the whole per-size loop
and re-raises any exception; the Firestore patch sits in an inner
try/except whose failure is only logged. -/
def generate_photo_thumbnail (env : ThumbEnv) (file_path : List Char) : WorkerResult :=
  if containsSeg "/thumbnails/".data file_path then WorkerResult.skipped
  else if !(containsSeg "/photos/".data file_path) then WorkerResult.skipped
  else if !env.downloadOk then WorkerResult.raised []
  else
    match thumbLoop env.sizeOk file_path THUMBNAIL_SIZES with
    | Except.error ups => WorkerResult.raised ups
    | Except.ok ups => WorkerResult.completed ups (env.docExists && env.patchOk)

theorem find?_append_of_none {α : Type} (p : α → Bool) (l₁ l₂ : List α)
    (h : l₁.find? p = none) : (l₁ ++ l₂).find? p = l₂.find? p := by
  induction l₁ with
  | nil => rfl
  | cons a t ih =>
    rw [List.cons_append]
    cases hp : p a with
    | true => rw [List.find?_cons_of_pos _ hp] at h; exact absurd h (by simp)
    | false =>
      rw [List.find?_cons_of_neg _ (by simp [hp])] at h
      rw [List.find?_cons_of_neg _ (by simp [hp])]
      exact ih h

theorem get_by_id_append_self (photos : List Photo) (p : Photo)
    (h : ∀ q ∈ photos, q.id ≠ p.id) :
    PhotoRepository.get_by_id (photos ++ [p]) p.id = some p := by
  unfold PhotoRepository.get_by_id
  rw [find?_append_of_none]
  · simp
  · exact List.find?_eq_none.mpr (by intro q hq hbeq; exact h q hq (by simpa using hbeq))

theorem upload_photo_mark_fail (env : UploadEnv) (ct : String) (sz uid nid now : Nat)
    (path : String) (s : Store)
    (hct : ct ∈ Settings.ALLOWED_IMAGE_TYPES) (hsz : sz ≤ Settings.MAX_UPLOAD_SIZE)
    (hS : env.storageOk = true) (hI : env.insertOk = true) (hM : env.markOk = false)
    (hfresh : ∀ p ∈ s.photos, p.id ≠ nid) :
    upload_photo env ct sz uid nid now path s =
      (UploadOutcome.serverError,
       { photos := s.photos ++
           [{ id := nid, user_id := uid, storage_path := path,
              status := PhotoStatus.uploading, created_at := now }],
         docs := (FirestoreService.save_photo_metadata env.firestoreSetOk s.docs nid
           PhotoStatus.uploading).2,
         blobs := s.blobs ++ [path] }) := by
  have hget : PhotoRepository.get_by_id
      (s.photos ++
        [{ id := nid, user_id := uid, storage_path := path,
           status := PhotoStatus.uploading, created_at := now }]) nid =
      some { id := nid, user_id := uid, storage_path := path,
             status := PhotoStatus.uploading, created_at := now } :=
    get_by_id_append_self s.photos _ hfresh
  simp only [upload_photo, StorageService.upload_file, PhotoRepository.create,
    PhotoService.mark_as_processed, PhotoService.update_photo, PhotoRepository.update_photo,
    hct, Nat.not_lt.mpr hsz, hS, hI, hM, hget, Option.isNone_none, Option.isNone_some,
    Bool.and_false, Bool.false_eq_true, not_true, not_false_eq_true, if_true, if_false,
    ite_true, ite_false, reduceIte]

theorem upload_photo_all_ok (env : UploadEnv) (ct : String) (sz uid nid now : Nat)
    (path : String) (s : Store)
    (hct : ct ∈ Settings.ALLOWED_IMAGE_TYPES) (hsz : sz ≤ Settings.MAX_UPLOAD_SIZE)
    (hS : env.storageOk = true) (hI : env.insertOk = true) (hM : env.markOk = true)
    (hfresh : ∀ p ∈ s.photos, p.id ≠ nid) :
    upload_photo env ct sz uid nid now path s =
      (UploadOutcome.created
        { id := nid, user_id := uid, storage_path := path,
          status := PhotoStatus.uploading, created_at := now },
       { photos := PhotoRepository.update_rows
           (s.photos ++
             [{ id := nid, user_id := uid, storage_path := path,
                status := PhotoStatus.uploading, created_at := now }]) nid none
           (some PhotoStatus.processed),
         docs := (FirestoreService.update_photo_metadata env.firestoreUpdateOk
           (FirestoreService.save_photo_metadata env.firestoreSetOk s.docs nid
             PhotoStatus.uploading).2 nid PhotoStatus.processed).2,
         blobs := s.blobs ++ [path] }) := by
  have hget : PhotoRepository.get_by_id
      (s.photos ++
        [{ id := nid, user_id := uid, storage_path := path,
           status := PhotoStatus.uploading, created_at := now }]) nid =
      some { id := nid, user_id := uid, storage_path := path,
             status := PhotoStatus.uploading, created_at := now } :=
    get_by_id_append_self s.photos _ hfresh
  simp only [upload_photo, StorageService.upload_file, PhotoRepository.create,
    PhotoService.mark_as_processed, PhotoService.update_photo, PhotoRepository.update_photo,
    hct, Nat.not_lt.mpr hsz, hS, hI, hM, hget, Option.isNone_none, Option.isNone_some,
    Bool.and_false, Bool.false_eq_true, not_true, not_false_eq_true, if_true, if_false,
    ite_true, ite_false, reduceIte]

theorem upload_photo_storage_fail (env : UploadEnv) (ct : String) (sz uid nid now : Nat)
    (path : String) (s : Store)
    (hct : ct ∈ Settings.ALLOWED_IMAGE_TYPES) (hsz : sz ≤ Settings.MAX_UPLOAD_SIZE)
    (hS : env.storageOk = false) :
    upload_photo env ct sz uid nid now path s = (UploadOutcome.serverError, s) := by
  unfold upload_photo StorageService.upload_file
  rw [if_neg (not_not_intro hct), if_neg (Nat.not_lt.mpr hsz), if_neg (by simp [hS])]

/-- C2: when the object-store put raises, the upload flow aborts with a
server error before any Photo row is inserted; the whole store is left
unchanged. -/
theorem upload_storage_failure_aborts (env : UploadEnv) (ct : String) (sz uid nid now : Nat)
    (path : String) (s : Store)
    (hct : ct ∈ Settings.ALLOWED_IMAGE_TYPES) (hsz : sz ≤ Settings.MAX_UPLOAD_SIZE)
    (hS : env.storageOk = false) :
    upload_photo env ct sz uid nid now path s = (UploadOutcome.serverError, s) :=
  upload_photo_storage_fail env ct sz uid nid now path s hct hsz hS

theorem upload_storage_failure_aborts_witness :
    ("image/png" ∈ Settings.ALLOWED_IMAGE_TYPES) ∧ (2048 ≤ Settings.MAX_UPLOAD_SIZE) ∧
    upload_photo
      { storageOk := false, insertOk := true, firestoreSetOk := true,
        markOk := true, firestoreUpdateOk := true }
      "image/png" 2048 42 7 0 "users/42/photos/a.png"
      { photos := [], docs := [], blobs := [] } =
      (UploadOutcome.serverError, { photos := [], docs := [], blobs := [] }) :=
  ⟨by decide, by decide,
   upload_storage_failure_aborts _ _ _ _ _ _ _ _ (by decide) (by decide) rfl⟩

/-- C3: when the object put and the row insert succeed but the document-store
metadata write fails, the failure is swallowed: the upload flow still marks
the Photo row processed and returns a success (created) response. -/
theorem upload_metadata_failure_swallowed (env : UploadEnv) (ct : String)
    (sz uid nid now : Nat) (path : String) (s : Store)
    (hct : ct ∈ Settings.ALLOWED_IMAGE_TYPES) (hsz : sz ≤ Settings.MAX_UPLOAD_SIZE)
    (hS : env.storageOk = true) (hI : env.insertOk = true) (hM : env.markOk = true)
    (hF : env.firestoreSetOk = false)
    (hfresh : ∀ p ∈ s.photos, p.id ≠ nid) :
    (∃ photo, (upload_photo env ct sz uid nid now path s).1 = UploadOutcome.created photo) ∧
    ∃ p ∈ (upload_photo env ct sz uid nid now path s).2.photos,
      p.id = nid ∧ p.status = PhotoStatus.processed := by
  rw [upload_photo_all_ok env ct sz uid nid now path s hct hsz hS hI hM hfresh]
  refine ⟨⟨_, rfl⟩, ?_⟩
  refine ⟨{ id := nid, user_id := uid, storage_path := path,
            status := PhotoStatus.processed, created_at := now }, ?_, rfl, rfl⟩
  unfold PhotoRepository.update_rows
  refine List.mem_map.mpr
    ⟨{ id := nid, user_id := uid, storage_path := path,
       status := PhotoStatus.uploading, created_at := now }, by simp, by simp⟩

theorem upload_metadata_failure_swallowed_witness :
    (∃ photo,
      (upload_photo
        { storageOk := true, insertOk := true, firestoreSetOk := false,
          markOk := true, firestoreUpdateOk := true }
        "image/png" 2048 42 7 0 "users/42/photos/a.png"
        { photos := [], docs := [], blobs := [] }).1 = UploadOutcome.created photo) ∧
    ∃ p ∈ (upload_photo
        { storageOk := true, insertOk := true, firestoreSetOk := false,
          markOk := true, firestoreUpdateOk := true }
        "image/png" 2048 42 7 0 "users/42/photos/a.png"
        { photos := [], docs := [], blobs := [] }).2.photos,
      p.id = 7 ∧ p.status = PhotoStatus.processed :=
  upload_metadata_failure_swallowed _ _ _ _ _ _ _ _
    (by decide) (by decide) rfl rfl rfl rfl (by simp)

/-- C1: for a valid upload whose row insert succeeds, the created Photo row
ends with status processed exactly when both the object-store write and the
relational status-update write succeed; if either fails, no row with the new
id is ever processed. -/
theorem upload_processed_iff_writes (env : UploadEnv) (ct : String)
    (sz uid nid now : Nat) (path : String) (s : Store)
    (hct : ct ∈ Settings.ALLOWED_IMAGE_TYPES) (hsz : sz ≤ Settings.MAX_UPLOAD_SIZE)
    (hI : env.insertOk = true)
    (hfresh : ∀ p ∈ s.photos, p.id ≠ nid) :
    (∃ p ∈ (upload_photo env ct sz uid nid now path s).2.photos,
        p.id = nid ∧ p.status = PhotoStatus.processed)
      ↔ (env.storageOk = true ∧ env.markOk = true) := by
  cases hS : env.storageOk with
  | false =>
    rw [upload_photo_storage_fail env ct sz uid nid now path s hct hsz hS]
    constructor
    · rintro ⟨p, hp, hid, -⟩
      exact absurd hid (hfresh p hp)
    · rintro ⟨h, -⟩
      exact absurd h (by simp)
  | true =>
    cases hM : env.markOk with
    | false =>
      rw [upload_photo_mark_fail env ct sz uid nid now path s hct hsz hS hI hM hfresh]
      constructor
      · rintro ⟨p, hp, hid, hst⟩
        rcases List.mem_append.mp hp with h | h
        · exact absurd hid (hfresh p h)
        · rw [List.mem_singleton.mp h] at hst
          exact PhotoStatus.noConfusion hst
      · rintro ⟨-, h⟩
        exact absurd h (by simp)
    | true =>
      rw [upload_photo_all_ok env ct sz uid nid now path s hct hsz hS hI hM hfresh]
      refine iff_of_true ?_ ⟨rfl, rfl⟩
      refine ⟨{ id := nid, user_id := uid, storage_path := path,
                status := PhotoStatus.processed, created_at := now }, ?_, rfl, rfl⟩
      unfold PhotoRepository.update_rows
      refine List.mem_map.mpr
        ⟨{ id := nid, user_id := uid, storage_path := path,
           status := PhotoStatus.uploading, created_at := now }, by simp, by simp⟩

theorem upload_processed_iff_writes_witness :
    (∃ p ∈ (upload_photo
        { storageOk := true, insertOk := true, firestoreSetOk := true,
          markOk := true, firestoreUpdateOk := true }
        "image/jpeg" 4096 42 7 0 "users/42/photos/b.jpg"
        { photos := [], docs := [], blobs := [] }).2.photos,
      p.id = 7 ∧ p.status = PhotoStatus.processed)
      ↔ (true = true ∧ true = true) :=
  upload_processed_iff_writes _ _ _ _ _ _ _ _ (by decide) (by decide) rfl (by simp)

/-- C9: an AI-generation request whose aspect ratio is outside the
enumerated set of ten supported ratios is rejected with a client error
before the AI adapter is ever called, with no Photo row created and no blob
stored. -/
theorem unsupported_ratio_rejected (env : GenEnv) (aspect : String)
    (uid nid now : Nat) (path : String) (s : Store)
    (h : aspect ∉ AIImageGeneratorService.get_supported_aspect_ratios) :
    generate_photo_from_text env aspect uid nid now path s =
      { outcome := GenOutcome.badRequest, store := s, aiCalled := false } := by
  unfold generate_photo_from_text
  rw [if_pos h]

theorem unsupported_ratio_rejected_witness :
    ("2:1" ∉ AIImageGeneratorService.get_supported_aspect_ratios) ∧
    generate_photo_from_text
      { aiOk := true, storageOk := true, insertOk := true,
        firestoreSetOk := true, markOk := true }
      "2:1" 42 7 0 "users/42/photos/a.png"
      { photos := [], docs := [], blobs := [] } =
      { outcome := GenOutcome.badRequest, store := { photos := [], docs := [], blobs := [] },
        aiCalled := false } :=
  ⟨by decide, unsupported_ratio_rejected _ _ _ _ _ _ _ (by decide)⟩

theorem get_by_id_filter_ne (photos : List Photo) (pid : Nat) :
    PhotoRepository.get_by_id (photos.filter (fun p => p.id ≠ pid)) pid = none := by
  unfold PhotoRepository.get_by_id
  apply List.find?_eq_none.mpr
  intro p hp
  have h2 := (List.mem_filter.mp hp).2
  simp only [decide_eq_true_eq] at h2
  simp [h2]

theorem delete_photo_noContent_state (env : DeleteEnv) (uid pid : Nat) (s s' : Store)
    (h : delete_photo env uid pid s = (DeleteOutcome.noContent, s')) :
    s'.photos = s.photos.filter (fun p => p.id ≠ pid) := by
  unfold delete_photo at h
  cases hg : PhotoRepository.get_by_id s.photos pid with
  | none => rw [hg] at h; cases h
  | some photo =>
    rw [hg] at h
    simp only [] at h
    by_cases hu : photo.user_id = uid
    · rw [if_neg (not_not_intro hu)] at h
      unfold PhotoService.delete_photo PhotoRepository.delete_photo at h
      rw [hg] at h
      simp only [] at h
      cases hok : env.rowDeleteOk with
      | false => rw [hok] at h; simp at h
      | true =>
        rw [hok] at h
        simp only [if_true, reduceIte] at h
        have h2 := congrArg Prod.snd h
        simp only at h2
        rw [← h2]
    · rw [if_pos hu] at h
      cases h

/-- C4: photo deletion is idempotent — after a delete that returns 204, a
second delete of the same id returns 404 — and the best-effort blob/document
steps never raise and never block the relational row deletion. -/
theorem delete_photo_idempotent :
    (∀ (env env' : DeleteEnv) (uid uid' pid : Nat) (s s' : Store),
      delete_photo env uid pid s = (DeleteOutcome.noContent, s') →
      (delete_photo env' uid' pid s').1 = DeleteOutcome.notFound) ∧
    (∀ (env : DeleteEnv) (uid pid : Nat) (s : Store) (photo : Photo),
      PhotoRepository.get_by_id s.photos pid = some photo →
      photo.user_id = uid →
      env.rowDeleteOk = true →
      (delete_photo env uid pid s).1 = DeleteOutcome.noContent) := by
  constructor
  · intro env env' uid uid' pid s s' h
    have hphotos := delete_photo_noContent_state env uid pid s s' h
    unfold delete_photo
    rw [show PhotoRepository.get_by_id s'.photos pid = none by
      rw [hphotos]; exact get_by_id_filter_ne s.photos pid]
  · intro env uid pid s photo hg hu hok
    unfold delete_photo PhotoService.delete_photo PhotoRepository.delete_photo
    rw [hg]
    simp only []
    rw [if_neg (not_not_intro hu), hok]
    simp

theorem delete_photo_idempotent_witness :
    (delete_photo { blobDeleteOk := false, docDeleteOk := false, rowDeleteOk := true } 42 7
      { photos := [{ id := 7, user_id := 42, storage_path := "users/42/photos/a.png",
                     status := PhotoStatus.processed, created_at := 0 }],
        docs := [(7, PhotoStatus.processed)], blobs := [] }).1 = DeleteOutcome.noContent ∧
    (delete_photo { blobDeleteOk := true, docDeleteOk := true, rowDeleteOk := true } 42 7
      { photos := [], docs := [(7, PhotoStatus.processed)], blobs := [] }).1 =
      DeleteOutcome.notFound :=
  ⟨delete_photo_idempotent.2 _ 42 7 _ _ rfl rfl rfl,
   delete_photo_idempotent.1
     { blobDeleteOk := false, docDeleteOk := false, rowDeleteOk := true } _ 42 42 7
     { photos := [{ id := 7, user_id := 42, storage_path := "users/42/photos/a.png",
                    status := PhotoStatus.processed, created_at := 0 }],
       docs := [(7, PhotoStatus.processed)], blobs := [] } _ rfl⟩

theorem add_photo_result_cases (albums : List Album) (photos : List Photo)
    (assoc : List AlbumPhoto) (a p u : Nat) :
    AlbumService.add_photo_to_album albums photos assoc a p u = (false, assoc) ∨
    ((∃ album, AlbumRepository.get_by_id albums a = some album ∧ album.user_id = u) ∧
     (∃ photo, PhotoRepository.get_by_id photos p = some photo ∧ photo.user_id = u) ∧
     AlbumRepository.is_photo_in_album assoc a p = false ∧
     AlbumService.add_photo_to_album albums photos assoc a p u =
       (true, assoc ++ [{ album_id := a, photo_id := p }])) := by
  unfold AlbumService.add_photo_to_album
  cases hA : AlbumRepository.get_by_id albums a with
  | none => exact Or.inl rfl
  | some album =>
    simp only []
    by_cases h1 : album.user_id = u
    · rw [if_neg (not_not_intro h1)]
      cases hP : PhotoRepository.get_by_id photos p with
      | none => exact Or.inl rfl
      | some photo =>
        simp only []
        by_cases h2 : photo.user_id = u
        · rw [if_neg (not_not_intro h2)]
          cases hdup : AlbumRepository.is_photo_in_album assoc a p with
          | true => exact Or.inl (if_pos rfl)
          | false =>
            refine Or.inr ⟨⟨album, rfl, h1⟩, ⟨photo, rfl, h2⟩, rfl, ?_⟩
            rw [if_neg (by simp)]
            rfl
        · rw [if_pos h2]
          exact Or.inl rfl
    · rw [if_pos h1]
      exact Or.inl rfl

theorem add_photo_fail_keeps (albums : List Album) (photos : List Photo)
    (assoc : List AlbumPhoto) (a p u : Nat)
    (h : (AlbumService.add_photo_to_album albums photos assoc a p u).1 = false) :
    (AlbumService.add_photo_to_album albums photos assoc a p u).2 = assoc := by
  rcases add_photo_result_cases albums photos assoc a p u with he | ⟨-, -, -, he⟩
  · rw [he]
  · rw [he] at h; cases h

theorem add_photo_success_inserts (albums : List Album) (photos : List Photo)
    (assoc : List AlbumPhoto) (a p u : Nat)
    (h : (AlbumService.add_photo_to_album albums photos assoc a p u).1 = true) :
    (∃ album, AlbumRepository.get_by_id albums a = some album ∧ album.user_id = u) ∧
    (∃ photo, PhotoRepository.get_by_id photos p = some photo ∧ photo.user_id = u) ∧
    AlbumRepository.is_photo_in_album assoc a p = false ∧
    (AlbumService.add_photo_to_album albums photos assoc a p u).2 =
      assoc ++ [{ album_id := a, photo_id := p }] := by
  rcases add_photo_result_cases albums photos assoc a p u with he | ⟨hAl, hPh, hdup, he⟩
  · rw [he] at h; cases h
  · exact ⟨hAl, hPh, hdup, by rw [he]⟩

theorem add_photo_dup_fails (albums : List Album) (photos : List Photo)
    (assoc : List AlbumPhoto) (a p u : Nat)
    (h : AlbumRepository.is_photo_in_album assoc a p = true) :
    (AlbumService.add_photo_to_album albums photos assoc a p u).1 = false := by
  rcases add_photo_result_cases albums photos assoc a p u with he | ⟨-, -, hdup, -⟩
  · rw [he]
  · rw [h] at hdup; cases hdup

/-- C5 counterexample: the three failure causes do not all yield one uniform
signal — a missing album yields a 404 while a missing photo (album present
and owned) yields the shared 400. -/
theorem add_photo_signals_differ_cex :
    (add_photo_to_album_route [] [] [] 1 2 7).1 = AddOutcome.albumNotFound ∧
    (add_photo_to_album_route [{ id := 1, user_id := 7 }] [] [] 1 2 7).1 =
      AddOutcome.badRequest ∧
    AddOutcome.albumNotFound ≠ AddOutcome.badRequest :=
  ⟨rfl, rfl, by decide⟩

/-- C5 (amended): the service verifies all three conditions — album exists
and is owned, photo exists and is owned by the same user, pair not already
associated — before inserting, and a failed check inserts nothing; at the
route level the photo-missing / photo-not-owned / already-associated causes
share one uniform 400, while album-missing and album-not-owned are reported
distinctly as 404 and 403. -/
theorem add_photo_checks_and_signals (albums : List Album) (photos : List Photo)
    (assoc : List AlbumPhoto) (album_id photo_id uid : Nat) :
    ((AlbumService.add_photo_to_album albums photos assoc album_id photo_id uid).1 = false →
      (AlbumService.add_photo_to_album albums photos assoc album_id photo_id uid).2 = assoc) ∧
    ((AlbumService.add_photo_to_album albums photos assoc album_id photo_id uid).1 = true →
      (∃ album, AlbumRepository.get_by_id albums album_id = some album ∧
        album.user_id = uid) ∧
      (∃ photo, PhotoRepository.get_by_id photos photo_id = some photo ∧
        photo.user_id = uid) ∧
      AlbumRepository.is_photo_in_album assoc album_id photo_id = false ∧
      (AlbumService.add_photo_to_album albums photos assoc album_id photo_id uid).2 =
        assoc ++ [{ album_id := album_id, photo_id := photo_id }]) ∧
    (AlbumService.album_exists albums album_id = false →
      (add_photo_to_album_route albums photos assoc album_id photo_id uid).1 =
        AddOutcome.albumNotFound) ∧
    (∀ album, AlbumRepository.get_by_id albums album_id = some album →
      album.user_id ≠ uid →
      (add_photo_to_album_route albums photos assoc album_id photo_id uid).1 =
        AddOutcome.albumForbidden) ∧
    (AlbumService.verify_album_ownership albums album_id uid = true →
      (AlbumService.add_photo_to_album albums photos assoc album_id photo_id uid).1 = false →
      (add_photo_to_album_route albums photos assoc album_id photo_id uid).1 =
        AddOutcome.badRequest) := by
  refine ⟨add_photo_fail_keeps albums photos assoc album_id photo_id uid,
    add_photo_success_inserts albums photos assoc album_id photo_id uid, ?_, ?_, ?_⟩
  · intro hE
    have hA : AlbumRepository.get_by_id albums album_id = none := by
      unfold AlbumService.album_exists at hE
      exact Option.not_isSome_iff_eq_none.mp (by simp [hE])
    have hfail : (AlbumService.add_photo_to_album albums photos assoc album_id photo_id uid).1
        = false := by
      unfold AlbumService.add_photo_to_album
      rw [hA]
    have hV : AlbumService.verify_album_ownership albums album_id uid = false := by
      unfold AlbumService.verify_album_ownership
      rw [hA]
    unfold add_photo_to_album_route
    simp [hfail, hV, hE]
  · intro album hA hOwn
    have hfail : (AlbumService.add_photo_to_album albums photos assoc album_id photo_id uid).1
        = false := by
      unfold AlbumService.add_photo_to_album
      rw [hA]
      simp only []
      rw [if_pos hOwn]
    have hV : AlbumService.verify_album_ownership albums album_id uid = false := by
      unfold AlbumService.verify_album_ownership
      rw [hA]
      simpa using hOwn
    have hE : AlbumService.album_exists albums album_id = true := by
      unfold AlbumService.album_exists
      rw [hA]
      rfl
    unfold add_photo_to_album_route
    simp [hfail, hV, hE]
  · intro hV hfail
    unfold add_photo_to_album_route
    simp [hfail, hV]

theorem add_photo_checks_and_signals_witness :
    (add_photo_to_album_route [{ id := 1, user_id := 7 }]
      [{ id := 2, user_id := 9, storage_path := "q", status := PhotoStatus.processed,
         created_at := 0 }] [] 1 2 7).1 = AddOutcome.badRequest :=
  (add_photo_checks_and_signals _ _ _ 1 2 7).2.2.2.2 rfl rfl

theorem pairCount_eq_zero_of_not_in (assoc : List AlbumPhoto) (a p : Nat)
    (h : AlbumRepository.is_photo_in_album assoc a p = false) :
    pairCount assoc a p = 0 := by
  unfold AlbumRepository.is_photo_in_album at h
  have hnone : assoc.find? (fun ap => ap.album_id == a && ap.photo_id == p) = none :=
    Option.not_isSome_iff_eq_none.mp (by simp [h])
  unfold pairCount
  rw [List.filter_eq_nil_iff.mpr (List.find?_eq_none.mp hnone)]
  rfl

theorem pairCount_append (l₁ l₂ : List AlbumPhoto) (a p : Nat) :
    pairCount (l₁ ++ l₂) a p = pairCount l₁ a p + pairCount l₂ a p := by
  unfold pairCount
  rw [List.filter_append, List.length_append]

theorem pairCount_filter_le (assoc : List AlbumPhoto) (q : AlbumPhoto → Bool) (a p : Nat) :
    pairCount (assoc.filter q) a p ≤ pairCount assoc a p :=
  List.Sublist.length_le (List.Sublist.filter _ (List.filter_sublist assoc))

theorem pairCount_applyAlbumOp_le_one (albums : List Album) (photos : List Photo)
    (assoc : List AlbumPhoto) (op : AlbumOp) (a p : Nat)
    (h : pairCount assoc a p ≤ 1) :
    pairCount (applyAlbumOp albums photos assoc op) a p ≤ 1 := by
  cases op with
  | add a' p' u =>
    show pairCount (AlbumService.add_photo_to_album albums photos assoc a' p' u).2 a p ≤ 1
    rcases add_photo_result_cases albums photos assoc a' p' u with he | ⟨-, -, hdup, he⟩
    · rw [he]
      exact h
    · rw [he]
      show pairCount (assoc ++ [{ album_id := a', photo_id := p' }]) a p ≤ 1
      rw [pairCount_append]
      by_cases hap : a' = a ∧ p' = p
      · obtain ⟨rfl, rfl⟩ := hap
        rw [pairCount_eq_zero_of_not_in assoc a' p' hdup]
        simp [pairCount]
      · have hpred : (({ album_id := a', photo_id := p' } : AlbumPhoto).album_id == a &&
            ({ album_id := a', photo_id := p' } : AlbumPhoto).photo_id == p) = false := by
          by_cases h1 : a' = a
          · have h2 : ¬p' = p := fun h2 => hap ⟨h1, h2⟩
            simp [h1, h2]
          · simp [h1]
        have hz : pairCount [{ album_id := a', photo_id := p' }] a p = 0 := by
          simp [pairCount, hpred]
        rw [hz]
        simpa using h
  | remove a' p' u =>
    show pairCount (AlbumService.remove_photo_from_album albums assoc a' p' u).2 a p ≤ 1
    unfold AlbumService.remove_photo_from_album
    cases hA : AlbumRepository.get_by_id albums a' with
    | none => exact h
    | some album =>
      simp only []
      by_cases h1 : album.user_id = u
      · rw [if_neg (not_not_intro h1)]
        exact le_trans (pairCount_filter_le assoc _ a p) h
      · rw [if_pos h1]
        exact h

theorem pairCount_runAlbumOps_le_one (albums : List Album) (photos : List Photo)
    (a p : Nat) :
    ∀ (ops : List AlbumOp) (assoc : List AlbumPhoto),
      pairCount assoc a p ≤ 1 → pairCount (runAlbumOps albums photos assoc ops) a p ≤ 1 := by
  intro ops
  induction ops with
  | nil => intro assoc h; exact h
  | cons op rest ih =>
    intro assoc h
    exact ih (applyAlbumOp albums photos assoc op)
      (pairCount_applyAlbumOp_le_one albums photos assoc op a p h)

theorem add_photo_in_album_after_success (albums : List Album) (photos : List Photo)
    (assoc : List AlbumPhoto) (a p u : Nat)
    (h : (AlbumService.add_photo_to_album albums photos assoc a p u).1 = true) :
    AlbumRepository.is_photo_in_album
      (AlbumService.add_photo_to_album albums photos assoc a p u).2 a p = true := by
  obtain ⟨-, -, -, he⟩ := add_photo_success_inserts albums photos assoc a p u h
  rw [he]
  unfold AlbumRepository.is_photo_in_album
  simp only [List.find?_isSome]
  exact ⟨{ album_id := a, photo_id := p }, by simp, by simp⟩

/-- C6: a second add of the same (album, photo) pair after a successful add
returns failure, and across any sequence of album-membership operations the
number of association rows for one pair never exceeds 1. -/
theorem album_pair_unique (albums : List Album) (photos : List Photo) :
    (∀ (assoc : List AlbumPhoto) (a p u u' : Nat),
      (AlbumService.add_photo_to_album albums photos assoc a p u).1 = true →
      (AlbumService.add_photo_to_album albums photos
        (AlbumService.add_photo_to_album albums photos assoc a p u).2 a p u').1 = false) ∧
    (∀ (assoc : List AlbumPhoto) (ops : List AlbumOp) (a p : Nat),
      pairCount assoc a p ≤ 1 →
      pairCount (runAlbumOps albums photos assoc ops) a p ≤ 1) := by
  constructor
  · intro assoc a p u u' h
    exact add_photo_dup_fails albums photos _ a p u'
      (add_photo_in_album_after_success albums photos assoc a p u h)
  · intro assoc ops a p h
    exact pairCount_runAlbumOps_le_one albums photos a p ops assoc h

theorem album_pair_unique_witness :
    (AlbumService.add_photo_to_album [{ id := 1, user_id := 7 }]
      [{ id := 2, user_id := 7, storage_path := "q", status := PhotoStatus.processed,
         created_at := 0 }]
      (AlbumService.add_photo_to_album [{ id := 1, user_id := 7 }]
        [{ id := 2, user_id := 7, storage_path := "q", status := PhotoStatus.processed,
           created_at := 0 }] [] 1 2 7).2 1 2 7).1 = false ∧
    pairCount (runAlbumOps [{ id := 1, user_id := 7 }]
      [{ id := 2, user_id := 7, storage_path := "q", status := PhotoStatus.processed,
         created_at := 0 }] [] [AlbumOp.add 1 2 7, AlbumOp.add 1 2 7]) 1 2 ≤ 1 :=
  ⟨(album_pair_unique _ _).1 [] 1 2 7 7 rfl,
   (album_pair_unique _ _).2 [] [AlbumOp.add 1 2 7, AlbumOp.add 1 2 7] 1 2 (by decide)⟩

theorem rsplitOnce_eq_none (sep : Char) (s : List Char) (h : sep ∉ s) :
    rsplitOnce sep s = none := by
  induction s with
  | nil => rfl
  | cons c rest ih =>
    have hc : ¬c = sep := fun hc => h (hc ▸ List.mem_cons_self c rest)
    unfold rsplitOnce
    rw [ih (fun hm => h (List.mem_cons_of_mem c hm))]
    simp [hc]

theorem rsplitOnce_append (sep : Char) (a b : List Char) (h : sep ∉ b) :
    rsplitOnce sep (a ++ sep :: b) = some (a, b) := by
  induction a with
  | nil =>
    show rsplitOnce sep (sep :: b) = some ([], b)
    unfold rsplitOnce
    simp only []
    rw [rsplitOnce_eq_none sep b h]
    rfl
  | cons c t ih =>
    show rsplitOnce sep (c :: (t ++ sep :: b)) = some (c :: t, b)
    unfold rsplitOnce
    rw [ih]

theorem get_thumbnail_path_correct (pre n e size : List Char)
    (hn : '/' ∉ n) (he : '/' ∉ e) (hd : '.' ∉ e) :
    get_thumbnail_path (pre ++ "/photos/".data ++ n ++ '.' :: e) size =
      pre ++ "/photos/thumbnails/".data ++ n ++ '_' :: size ++ '.' :: e := by
  have hshape : pre ++ "/photos/".data ++ n ++ '.' :: e =
      (pre ++ "/photos".data) ++ '/' :: (n ++ '.' :: e) := by
    rw [show ("/photos/".data : List Char) = "/photos".data ++ ['/'] from rfl]
    simp [List.append_assoc]
  have hslash : '/' ∉ n ++ '.' :: e := by
    intro hm
    rcases List.mem_append.mp hm with hm | hm
    · exact hn hm
    · rcases List.mem_cons.mp hm with hm | hm
      · exact absurd hm (by decide)
      · exact he hm
  have hsplit1 : rsplitOnce '/' (pre ++ "/photos/".data ++ n ++ '.' :: e) =
      some (pre ++ "/photos".data, n ++ '.' :: e) := by
    rw [hshape]
    exact rsplitOnce_append '/' _ _ hslash
  have hsplit2 : rsplitOnce '.' (n ++ '.' :: e) = some (n, e) :=
    rsplitOnce_append '.' n e hd
  have hne : ¬(pre ++ "/photos".data = []) := by simp
  unfold get_thumbnail_path
  rw [hsplit1]
  simp only [hsplit2, if_neg hne]
  simp

theorem containsSeg_of_middle (pat x y : List Char) :
    containsSeg pat (x ++ pat ++ y) = true := by
  unfold containsSeg
  rw [List.any_eq_true]
  refine ⟨pat ++ y, ?_, ?_⟩
  · rw [List.mem_tails]
    exact ⟨x, by rw [List.append_assoc]⟩
  · rw [List.isPrefixOf_iff_prefix]
    exact ⟨y, rfl⟩

theorem thumbLoop_all_ok (ok : List Char → Bool) (path : List Char)
    (l : List (List Char × Nat × Nat)) (h : ∀ t ∈ l, ok t.1 = true) :
    thumbLoop ok path l = Except.ok (l.map (fun t => get_thumbnail_path path t.1)) := by
  induction l with
  | nil => rfl
  | cons t rest ih =>
    unfold thumbLoop
    rw [h t (List.mem_cons_self t rest), ih (fun x hx => h x (List.mem_cons_of_mem t hx))]
    simp

theorem thumbLoop_fail (ok : List Char → Bool) (path : List Char)
    (l : List (List Char × Nat × Nat)) (h : ∃ t ∈ l, ok t.1 = false) :
    ∃ ups, thumbLoop ok path l = Except.error ups := by
  induction l with
  | nil => obtain ⟨t, ht, -⟩ := h; cases ht
  | cons t rest ih =>
    cases hok : ok t.1 with
    | false =>
      refine ⟨[], ?_⟩
      unfold thumbLoop
      rw [hok]
      simp
    | true =>
      have hrest : ∃ x ∈ rest, ok x.1 = false := by
        obtain ⟨x, hx, hxf⟩ := h
        rcases List.mem_cons.mp hx with rfl | hx
        · rw [hok] at hxf; cases hxf
        · exact ⟨x, hx, hxf⟩
      obtain ⟨ups, hups⟩ := ih hrest
      refine ⟨get_thumbnail_path path t.1 :: ups, ?_⟩
      unfold thumbLoop
      rw [hok, hups]
      simp

/-- C7: the worker skips every event whose path already contains a
thumbnails segment or lies outside the photos namespace, and for a source
path dir/photos/name.ext it derives exactly the three thumbnail paths
dir/photos/thumbnails/name_small.ext, _medium.ext, _large.ext. -/
theorem thumbnail_paths_and_guards :
    (∀ (env : ThumbEnv) (path : List Char),
      containsSeg "/thumbnails/".data path = true →
      generate_photo_thumbnail env path = WorkerResult.skipped) ∧
    (∀ (env : ThumbEnv) (path : List Char),
      containsSeg "/photos/".data path = false →
      generate_photo_thumbnail env path = WorkerResult.skipped) ∧
    (∀ pre n e size : List Char, '/' ∉ n → '/' ∉ e → '.' ∉ e →
      get_thumbnail_path (pre ++ "/photos/".data ++ n ++ '.' :: e) size =
        pre ++ "/photos/thumbnails/".data ++ n ++ '_' :: size ++ '.' :: e) ∧
    (∀ (env : ThumbEnv) (path : List Char),
      containsSeg "/thumbnails/".data path = false →
      containsSeg "/photos/".data path = true →
      env.downloadOk = true →
      (∀ t ∈ THUMBNAIL_SIZES, env.sizeOk t.1 = true) →
      generate_photo_thumbnail env path =
        WorkerResult.completed
          [get_thumbnail_path path "small".data, get_thumbnail_path path "medium".data,
           get_thumbnail_path path "large".data] (env.docExists && env.patchOk)) := by
  refine ⟨?_, ?_, get_thumbnail_path_correct, ?_⟩
  · intro env path h
    unfold generate_photo_thumbnail
    rw [h]
    rfl
  · intro env path h
    unfold generate_photo_thumbnail
    rw [h]
    cases hT : containsSeg "/thumbnails/".data path <;> rfl
  · intro env path hT hP hD hok
    unfold generate_photo_thumbnail
    rw [hT, hP, hD, thumbLoop_all_ok env.sizeOk path THUMBNAIL_SIZES hok]
    rfl

theorem thumbnail_paths_and_guards_witness :
    generate_photo_thumbnail
      { downloadOk := true, sizeOk := fun _ => true, docExists := true, patchOk := true }
      "users/1/photos/abc.jpg".data =
      WorkerResult.completed
        [get_thumbnail_path "users/1/photos/abc.jpg".data "small".data,
         get_thumbnail_path "users/1/photos/abc.jpg".data "medium".data,
         get_thumbnail_path "users/1/photos/abc.jpg".data "large".data] true ∧
    get_thumbnail_path ("users/1".data ++ "/photos/".data ++ "abc".data ++ '.' :: "jpg".data)
        "small".data =
      "users/1".data ++ "/photos/thumbnails/".data ++ "abc".data ++ '_' :: "small".data ++
        '.' :: "jpg".data :=
  ⟨thumbnail_paths_and_guards.2.2.2 _ _ (by decide) (by decide) rfl
     (by intro t ht; rfl),
   thumbnail_paths_and_guards.2.2.1 "users/1".data "abc".data "jpg".data "small".data
     (by decide) (by decide) (by decide)⟩

/-- C8 counterexample: with the source image readable and a failure only for
the small size, the invocation re-raises with no thumbnail uploaded at all —
the remaining sizes are aborted and the re-raise is not limited to
source-read failures, contradicting the claim. -/
theorem thumbnail_single_size_abort_cex :
    ThumbEnv.downloadOk
      { downloadOk := true, sizeOk := fun n => !(n == "small".data),
        docExists := true, patchOk := true } = true ∧
    generate_photo_thumbnail
      { downloadOk := true, sizeOk := fun n => !(n == "small".data),
        docExists := true, patchOk := true }
      "users/1/photos/abc.jpg".data = WorkerResult.raised [] :=
  ⟨rfl, by decide⟩

/-- C8 (amended): inside the worker's single try block, a failure while
generating or uploading any one size aborts the remaining sizes and
re-raises the invocation (as does a source-download failure); only the
document-store patch is best-effort — when every size succeeds the
invocation completes regardless of whether the document exists or the patch
succeeds. -/
theorem thumbnail_failure_policy (env : ThumbEnv) (path : List Char)
    (hT : containsSeg "/thumbnails/".data path = false)
    (hP : containsSeg "/photos/".data path = true) :
    (env.downloadOk = false →
      generate_photo_thumbnail env path = WorkerResult.raised []) ∧
    (env.downloadOk = true → (∃ t ∈ THUMBNAIL_SIZES, env.sizeOk t.1 = false) →
      ∃ ups, generate_photo_thumbnail env path = WorkerResult.raised ups) ∧
    (env.downloadOk = true → (∀ t ∈ THUMBNAIL_SIZES, env.sizeOk t.1 = true) →
      generate_photo_thumbnail env path =
        WorkerResult.completed
          (THUMBNAIL_SIZES.map (fun t => get_thumbnail_path path t.1))
          (env.docExists && env.patchOk)) := by
  refine ⟨?_, ?_, ?_⟩
  · intro hD
    unfold generate_photo_thumbnail
    rw [hT, hP, hD]
    rfl
  · intro hD hfail
    obtain ⟨ups, hups⟩ := thumbLoop_fail env.sizeOk path THUMBNAIL_SIZES hfail
    refine ⟨ups, ?_⟩
    unfold generate_photo_thumbnail
    rw [hT, hP, hD, hups]
    rfl
  · intro hD hok
    unfold generate_photo_thumbnail
    rw [hT, hP, hD, thumbLoop_all_ok env.sizeOk path THUMBNAIL_SIZES hok]
    rfl

theorem thumbnail_failure_policy_witness :
    ∃ ups, generate_photo_thumbnail
      { downloadOk := true, sizeOk := fun n => !(n == "medium".data),
        docExists := true, patchOk := true }
      "users/1/photos/abc.jpg".data = WorkerResult.raised ups :=
  (thumbnail_failure_policy _ _ (by decide) (by decide)).2.1 rfl
    ⟨("medium".data, 300, 300), by decide, by decide⟩

/-- C10: a successful update_photo touches only the fields supplied — id,
user_id and created_at of every row are unchanged, storage_path and status
change only when the corresponding argument is not None, rows with a
different id are untouched, and with both arguments None the table is
returned entirely unchanged. -/
theorem update_photo_frame (photos photos2 : List Photo) (pid : Nat)
    (sp : Option String) (st : Option PhotoStatus) (r : Option Photo)
    (h : PhotoService.update_photo true photos pid sp st = Except.ok (photos2, r))
    (i : Nat) (p q : Photo) (hp : photos[i]? = some p) (hq : photos2[i]? = some q) :
    q.id = p.id ∧ q.user_id = p.user_id ∧ q.created_at = p.created_at ∧
    (p.id ≠ pid → q = p) ∧
    (sp = none → q.storage_path = p.storage_path) ∧
    (st = none → q.status = p.status) ∧
    (sp = none → st = none → photos2 = photos) := by
  unfold PhotoService.update_photo at h
  have hsame : photos2 = photos → q = p := by
    intro heq
    rw [heq, hp] at hq
    exact (Option.some.inj hq).symm
  cases hg : PhotoRepository.get_by_id photos pid with
  | none =>
    rw [hg] at h
    simp only [Except.ok.injEq, Prod.mk.injEq] at h
    obtain ⟨h2, -⟩ := h
    have hq2 := hsame h2.symm
    subst hq2
    exact ⟨rfl, rfl, rfl, fun _ => rfl, fun _ => rfl, fun _ => rfl, fun _ _ => h2.symm⟩
  | some _ =>
    rw [hg] at h
    simp only [] at h
    unfold PhotoRepository.update_photo at h
    cases hb : (sp.isNone && st.isNone) with
    | true =>
      rw [if_pos hb] at h
      simp only [Except.ok.injEq, Prod.mk.injEq] at h
      obtain ⟨h2, -⟩ := h
      have hq2 := hsame h2.symm
      subst hq2
      exact ⟨rfl, rfl, rfl, fun _ => rfl, fun _ => rfl, fun _ => rfl, fun _ _ => h2.symm⟩
    | false =>
      rw [if_neg (by simp [hb])] at h
      rw [if_pos rfl] at h
      simp only [Except.ok.injEq, Prod.mk.injEq] at h
      obtain ⟨h2, -⟩ := h
      have hlast : sp = none → st = none → photos2 = photos := by
        intro hsp hst
        rw [hsp, hst] at hb
        cases hb
      rw [← h2] at hq
      unfold PhotoRepository.update_rows at hq
      rw [List.getElem?_map, hp] at hq
      simp only [Option.map_some'] at hq
      have hq2 := (Option.some.inj hq).symm
      by_cases hpid : p.id = pid
      · rw [if_pos hpid] at hq2
        subst hq2
        refine ⟨rfl, rfl, rfl, fun hne => absurd hpid hne, ?_, ?_, hlast⟩
        · intro hsp; rw [hsp]; rfl
        · intro hst; rw [hst]; rfl
      · rw [if_neg hpid] at hq2
        subst hq2
        exact ⟨rfl, rfl, rfl, fun _ => rfl, fun _ => rfl, fun _ => rfl, hlast⟩

theorem update_photo_frame_witness :
    ({ id := 7, user_id := 42, storage_path := "a", status := PhotoStatus.processed,
       created_at := 5 } : Photo).id =
      ({ id := 7, user_id := 42, storage_path := "a", status := PhotoStatus.uploading,
         created_at := 5 } : Photo).id :=
  (update_photo_frame
    [{ id := 7, user_id := 42, storage_path := "a", status := PhotoStatus.uploading,
       created_at := 5 }]
    [{ id := 7, user_id := 42, storage_path := "a", status := PhotoStatus.processed,
       created_at := 5 }]
    7 none (some PhotoStatus.processed)
    (some { id := 7, user_id := 42, storage_path := "a", status := PhotoStatus.processed,
            created_at := 5 })
    rfl 0 _ _ rfl rfl).1

end PhotoStudio
